import Mathlib

/-!
Verification of `nucleus/io/sam.py` — the SAM/BAM reader/writer dispatch layer.

We shallowly embed the Python module `src/nucleus/io/sam.py`:
`NativeSamReader.__init__` (tfbam dispatch, downsample validation, default
seed, `SamReaderOptions` construction), the `NativeSamWriter` stub, and
`InMemorySamReader` (replace_reads / iterate / query).

Python floats are modelled as rationals (`ℚ`); all the comparisons the code
performs (`!= 0`, `0.0 < f <= 1.0`) behave identically on the rational values
of the constants involved. Fallible construction is modelled with `Except`:
an `Except.error` result corresponds to the Python constructor raising before
any backend object is created, and `Except.ok` carries the backend call that
the constructor would have made (so "no backend opened / no I/O attempted on
the error path" is visible in the result type).
-/

/-- A genomic range with half-open `[start, end)` semantics, mirroring the
`nucleus.genomics.v1.Range` message: `(reference_name, start, end)`. -/
structure Range where
  reference_name : String
  start : Int
  «end» : Int
deriving DecidableEq, Repr

/-- Modelled from the spec: a Record "exposes at minimum a derived genomic
span (reference sequence name, start, end) used for overlap testing"
(the record schema module and `nucleus.util.utils.read_range` are not under
`src/`), so a Read is modelled as carrying its derived span. -/
structure Read where
  span : Range
deriving DecidableEq, Repr

/-- Modelled from the spec: `derive_span(record) -> (ref, start, end)` —
`nucleus.util.utils.read_range`, which maps a record to its genomic extent,
is not under `src/`. -/
def read_range (read : Read) : Range :=
  read.span

/-- Modelled from the spec: the RegionOverlapPredicate contract of
`nucleus.util.ranges.ranges_overlap`, which is not under `src/`: "Two
half-open intervals on the same reference sequence overlap iff
`region.ref == span.ref && region.start < span.end && span.start < region.end`.
Intervals on different reference sequences never overlap." -/
def ranges_overlap (i1 i2 : Range) : Bool :=
  i1.reference_name == i2.reference_name
    && decide (i1.start < i2.«end») && decide (i2.start < i1.«end»)

/-- The Prop-level overlap contract of the spec (§4.1), used to state claims
against; `ranges_overlap` is its executable form. -/
def RegionOverlapPredicate (region span : Range) : Prop :=
  region.reference_name = span.reference_name
    ∧ region.start < span.«end» ∧ span.start < region.«end»

instance (region span : Range) : Decidable (RegionOverlapPredicate region span) :=
  inferInstanceAs (Decidable (region.reference_name = span.reference_name
    ∧ region.start < span.«end» ∧ span.start < region.«end»))

/-- Python `str.endswith(suffix)`, used by `input_path.endswith('.tfbam')`:
true iff `suffix` is a suffix of the string, modelled on the character list. -/
def endswith (s suffix : String) : Bool :=
  suffix.data.isSuffixOf s.data

/-- The two values of `reads_pb2.SamReaderOptions.aux_field_handling` used by
`NativeSamReader.__init__`. -/
inductive AuxFieldHandling where
  | SKIP_AUX_FIELDS : AuxFieldHandling
  | PARSE_ALL_AUX_FIELDS : AuxFieldHandling
deriving DecidableEq, Repr

/-- Opaque stand-in for the `ReadRequirements` proto: `NativeSamReader` only
passes it through, never inspects it. -/
inductive ReadRequirements where
  | mk : ReadRequirements
deriving DecidableEq, Repr

/-- Opaque stand-in for the `nucleus.SamHeader` proto: `NativeSamWriter` only
receives it, never inspects it (it raises first). -/
inductive SamHeader where
  | mk : SamHeader
deriving DecidableEq, Repr

/-- The `reads_pb2.SamReaderOptions` proto as `NativeSamReader.__init__`
builds it. Proto scalar fields passed as Python `None` take the proto default
(`0`), which is what `Option.getD 0` expresses; `hts_block_size` is built
from `(hts_block_size or 0)` in the source, which also maps `None` to `0`. -/
structure SamReaderOptions where
  read_requirements : Option ReadRequirements
  aux_field_handling : AuxFieldHandling
  hts_block_size : Int
  downsample_fraction : ℚ
  random_seed : Int
deriving DecidableEq, Repr

/-- The errors `NativeSamReader.__init__` can raise: `ImportError` for
`.tfbam` paths without `tfbam_lib`, `ValueError` for a bad
`downsample_fraction` (the Python `ValueError` carries the message and the
offending value). -/
inductive SamError where
  | importError (msg : String) : SamError
  | valueError (msg : String) (value : Option ℚ) : SamError
deriving DecidableEq, Repr

/-- The backend call a successful `NativeSamReader.__init__` makes: either
`tfbam_reader.make_sam_reader(...)` with the arguments passed through
unchanged, or `sam_reader.SamReader.from_file(path, options)`. -/
inductive NativeSamReaderResult where
  | tfbamReader (input_path : String)
      (read_requirements : Option ReadRequirements)
      (unused_block_size : Option Int)
      (downsample_fraction : Option ℚ)
      (random_seed : Option Int) : NativeSamReaderResult
  | samReader (input_path : String)
      (options : SamReaderOptions) : NativeSamReaderResult
deriving DecidableEq, Repr

/-- The guard of the `ValueError` branch, mirroring
`downsample_fraction is not None and downsample_fraction != 0`
followed by `not 0.0 < downsample_fraction <= 1.0`. -/
def downsample_out_of_range (downsample_fraction : Option ℚ) : Bool :=
  match downsample_fraction with
  | none => false
  | some f => decide (f ≠ 0) && !(decide ((0 : ℚ) < f) && decide (f ≤ 1))

/-- The fixed default random seed substituted when `random_seed is None`
(source comment: produced with `od -vAn -N4 -tu4 < /dev/urandom`). -/
def defaultRandomSeed : Int := 2928130004

/-- `NativeSamReader.__init__`. `tfbam_lib_available` models whether the
delayed `from tfbam_lib import tfbam_reader` succeeds (the module is an
optional external dependency); everything else follows the source. -/
def NativeSamReader.init
    (tfbam_lib_available : Bool)
    (input_path : String)
    (read_requirements : Option ReadRequirements)
    (parse_aux_fields : Bool)
    (hts_block_size : Option Int)
    (downsample_fraction : Option ℚ)
    (random_seed : Option Int) :
    Except SamError NativeSamReaderResult :=
  if endswith input_path ".tfbam" then
    if tfbam_lib_available then
      Except.ok (NativeSamReaderResult.tfbamReader input_path
        read_requirements hts_block_size downsample_fraction random_seed)
    else
      Except.error (SamError.importError
        "tfbam_lib module not found, cannot read .tfbam files.")
  else
    let aux_field_handling :=
      if parse_aux_fields then AuxFieldHandling.PARSE_ALL_AUX_FIELDS
      else AuxFieldHandling.SKIP_AUX_FIELDS
    if downsample_out_of_range downsample_fraction then
      Except.error (SamError.valueError
        "downsample_fraction must be in the interval (0.0, 1.0]"
        downsample_fraction)
    else
      let seed := random_seed.getD defaultRandomSeed
      Except.ok (NativeSamReaderResult.samReader input_path
        { read_requirements := read_requirements
          aux_field_handling := aux_field_handling
          hts_block_size := hts_block_size.getD 0
          downsample_fraction := downsample_fraction.getD 0
          random_seed := seed })

/-- The error `NativeSamWriter` raises: `NotImplementedError`. -/
inductive WriterError where
  | notImplementedError : WriterError
deriving DecidableEq, Repr

/-- `NativeSamWriter.__init__(output_path, header)`: `raise NotImplementedError`
unconditionally. -/
def NativeSamWriter.init (output_path : String) (header : SamHeader) :
    Except WriterError Unit :=
  Except.error WriterError.notImplementedError

/-- `NativeSamWriter.write(proto)`: `raise NotImplementedError`
unconditionally. -/
def NativeSamWriter.write (proto : Read) : Except WriterError Unit :=
  Except.error WriterError.notImplementedError

/-- `InMemorySamReader`: `reads` is the backing list, `is_sorted` the
sortedness flag. -/
structure InMemorySamReader where
  reads : List Read
  is_sorted : Bool
deriving DecidableEq, Repr

/-- `InMemorySamReader.replace_reads(reads, is_sorted)`: replaces both
attributes; the prior state is discarded entirely. -/
def InMemorySamReader.replace_reads (self : InMemorySamReader)
    (reads : List Read) (is_sorted : Bool) : InMemorySamReader :=
  { reads := reads, is_sorted := is_sorted }

/-- `InMemorySamReader.__init__(reads, is_sorted)`: delegates to
`replace_reads`. -/
def InMemorySamReader.init (reads : List Read) (is_sorted : Bool) :
    InMemorySamReader :=
  InMemorySamReader.replace_reads { reads := [], is_sorted := false }
    reads is_sorted

/-- `InMemorySamReader.iterate()`: returns `self.reads`. -/
def InMemorySamReader.iterate (self : InMemorySamReader) : List Read :=
  self.reads

/-- `InMemorySamReader.query(region)`: the generator
`(read for read in self.reads if ranges.ranges_overlap(region, utils.read_range(read)))`. -/
def InMemorySamReader.query (self : InMemorySamReader) (region : Range) :
    List Read :=
  self.reads.filter (fun read => ranges_overlap region (read_range read))

/-- Recognizer for the `ValueError` outcome of `NativeSamReader.__init__`. -/
def isValueError : Except SamError NativeSamReaderResult → Bool
  | Except.error (SamError.valueError _ _) => true
  | _ => false

/-- The read `A(chr1,10,20)` of the spec's in-memory example. -/
def readA : Read :=
  { span := { reference_name := "chr1", start := 10, «end» := 20 } }

/-- The read `B(chr1,30,40)` of the spec's in-memory example. -/
def readB : Read :=
  { span := { reference_name := "chr1", start := 30, «end» := 40 } }

/-- The read `C(chr2,10,20)` of the spec's in-memory example. -/
def readC : Read :=
  { span := { reference_name := "chr2", start := 10, «end» := 20 } }

/-- The executable overlap test agrees with the spec's Prop-level
RegionOverlapPredicate contract. -/
theorem ranges_overlap_iff (i1 i2 : Range) :
    ranges_overlap i1 i2 = true ↔ RegionOverlapPredicate i1 i2 := by
  simp [ranges_overlap, RegionOverlapPredicate, and_assoc]

/-- The executable overlap test is the decision procedure of the spec's
Prop-level contract. -/
theorem ranges_overlap_eq_decide (i1 i2 : Range) :
    ranges_overlap i1 i2 = decide (RegionOverlapPredicate i1 i2) := by
  by_cases h : RegionOverlapPredicate i1 i2
  · simp [h, (ranges_overlap_iff i1 i2).2 h]
  · have hc : ¬ranges_overlap i1 i2 = true :=
      fun hc => h ((ranges_overlap_iff i1 i2).1 hc)
    simp only [Bool.not_eq_true] at hc
    simp [h, hc]

/-- Claim C5: for every output path, header, and record, the native writer's
write path (`NativeSamWriter.__init__` and `NativeSamWriter.write`) always
fails with `NotImplementedError`, regardless of input. -/
theorem C5_native_writer_not_implemented :
    ∀ (output_path : String) (header : SamHeader) (proto : Read),
      NativeSamWriter.init output_path header
          = Except.error WriterError.notImplementedError
        ∧ NativeSamWriter.write proto
          = Except.error WriterError.notImplementedError := by
  intro output_path header proto
  exact ⟨rfl, rfl⟩

/-- Claim C7: `InMemorySamReader.iterate()` yields exactly the stored list in
its current order, applying no filtering of any kind (it is the identity on
the stored `reads` attribute, both for a freshly constructed reader and for
any reader state). -/
theorem C7_in_memory_iterate_unfiltered :
    ∀ (reads : List Read) (is_sorted : Bool) (self : InMemorySamReader),
      (InMemorySamReader.init reads is_sorted).iterate = reads
        ∧ self.iterate = self.reads := by
  intro reads is_sorted self
  exact ⟨rfl, rfl⟩

/-- Claim C8: `replace_reads(records, is_sorted)` fully replaces prior state:
afterwards `iterate()` yields exactly the new records, `query` consults only
the new records (the result does not depend on the old state), and replacing
with the empty list makes both `iterate()` and `query(region)` empty for
every region. -/
theorem C8_replace_reads_fully_replaces_state :
    ∀ (old other : InMemorySamReader) (reads : List Read) (is_sorted : Bool)
      (region : Range),
      (old.replace_reads reads is_sorted).iterate = reads
        ∧ (old.replace_reads reads is_sorted).query region
            = reads.filter (fun r => ranges_overlap region (read_range r))
        ∧ old.replace_reads reads is_sorted = other.replace_reads reads is_sorted
        ∧ (old.replace_reads [] is_sorted).iterate = []
        ∧ (old.replace_reads [] is_sorted).query region = [] := by
  intro old other reads is_sorted region
  exact ⟨rfl, rfl, rfl, rfl, rfl⟩

/-- Claim C6: for every `InMemorySamReader` state and region, the records
yielded by `query(region)` are a sub(multi)set of those yielded by
`iterate()` — in fact an order-preserving sublist — and membership is
determined solely by region overlap. -/
theorem C6_query_subset_of_iterate :
    ∀ (self : InMemorySamReader) (region : Range),
      List.Sublist (self.query region) self.iterate
        ∧ (self.query region : Multiset Read) ≤ (self.iterate : Multiset Read)
        ∧ (∀ r : Read, r ∈ self.query region
            ↔ r ∈ self.iterate ∧ ranges_overlap region (read_range r) = true) := by
  intro self region
  refine ⟨List.filter_sublist _, ?_, ?_⟩
  · exact Multiset.coe_le.mpr (List.filter_sublist _).subperm
  · intro r
    simp [InMemorySamReader.query, InMemorySamReader.iterate, List.mem_filter]

/-- Claim C1: `InMemorySamReader.query(region)` yields exactly those stored
reads whose derived span overlaps the region per the RegionOverlapPredicate
contract, in stored-list order (an order-preserving sublist), scanning the
full list with a result independent of the `is_sorted` flag; on the list
`[A(chr1,10,20), B(chr1,30,40), C(chr2,10,20)]`, `query({chr1,15,35})`
returns exactly `[A, B]` and `query({chr3,0,100})` returns nothing. -/
theorem C1_query_exactly_overlapping_reads :
    (∀ (reads : List Read) (is_sorted : Bool) (region : Range),
      List.Sublist
          ((InMemorySamReader.mk reads is_sorted).query region) reads
        ∧ (∀ r : Read,
            r ∈ (InMemorySamReader.mk reads is_sorted).query region
              ↔ r ∈ reads ∧ RegionOverlapPredicate region (read_range r))
        ∧ (InMemorySamReader.mk reads is_sorted).query region
            = reads.filter
                (fun r => decide (RegionOverlapPredicate region (read_range r)))
        ∧ (InMemorySamReader.mk reads true).query region
            = (InMemorySamReader.mk reads false).query region)
      ∧ (InMemorySamReader.init [readA, readB, readC] false).query
          { reference_name := "chr1", start := 15, «end» := 35 }
          = [readA, readB]
      ∧ (InMemorySamReader.init [readA, readB, readC] false).query
          { reference_name := "chr3", start := 0, «end» := 100 } = [] := by
  refine ⟨fun reads is_sorted region => ⟨List.filter_sublist _, ?_, ?_, rfl⟩,
    by decide, by decide⟩
  · intro r
    simp [InMemorySamReader.query, List.mem_filter, ranges_overlap_iff]
  · exact List.filter_congr
      (fun r _ => ranges_overlap_eq_decide region (read_range r))

/-- Claim C4: opening a `NativeSamReader` on any path ending in the
deprecated `.tfbam` extension when `tfbam_lib` is absent fails with an
`ImportError` (not a crash or a silent fallback to another backend). -/
theorem C4_tfbam_without_lib_fails_import_error :
    ∀ (input_path : String) (read_requirements : Option ReadRequirements)
      (parse_aux_fields : Bool) (hts_block_size : Option Int)
      (downsample_fraction : Option ℚ) (random_seed : Option Int),
      endswith input_path ".tfbam" = true →
      NativeSamReader.init false input_path read_requirements
          parse_aux_fields hts_block_size downsample_fraction random_seed
        = Except.error (SamError.importError
            "tfbam_lib module not found, cannot read .tfbam files.") := by
  intro input_path rr paf hbs f seed hp
  simp [NativeSamReader.init, hp]

/-- Witness for C4 at the concrete path `"a.tfbam"`. -/
theorem C4_tfbam_without_lib_fails_import_error_witness :
    NativeSamReader.init false "a.tfbam" none false none none none
      = Except.error (SamError.importError
          "tfbam_lib module not found, cannot read .tfbam files.") :=
  C4_tfbam_without_lib_fails_import_error "a.tfbam" none false none none none
    (by decide)

/-- Claim C2: constructing a `NativeSamReader` (on the native, non-`.tfbam`
branch, the one its cited lines cover) with a `downsample_fraction` that is
neither `None`, nor `0`, nor within `(0.0, 1.0]` fails with `ValueError`; the
`Except.error` result carries no backend call, so no backend is opened and no
I/O is attempted. -/
theorem C2_invalid_downsample_fraction_value_error :
    ∀ (tfbam_lib_available : Bool) (input_path : String)
      (read_requirements : Option ReadRequirements) (parse_aux_fields : Bool)
      (hts_block_size : Option Int) (f : ℚ) (random_seed : Option Int),
      endswith input_path ".tfbam" = false →
      f ≠ 0 → ¬(0 < f ∧ f ≤ 1) →
      NativeSamReader.init tfbam_lib_available input_path read_requirements
          parse_aux_fields hts_block_size (some f) random_seed
        = Except.error (SamError.valueError
            "downsample_fraction must be in the interval (0.0, 1.0]"
            (some f)) := by
  intro tfA input_path rr paf hbs f seed hp hf hrange
  have h2 : (decide ((0 : ℚ) < f) && decide (f ≤ 1)) = false := by
    by_cases h0 : (0 : ℚ) < f
    · have h1 : ¬f ≤ 1 := fun hle => hrange ⟨h0, hle⟩
      simp [h0, h1]
    · simp [h0]
  have hout : downsample_out_of_range (some f) = true := by
    simp [downsample_out_of_range, h2, hf]
  simp [NativeSamReader.init, hp, hout]

/-- Witness for C2 at the concrete input `downsample_fraction = 2`,
path `"in.bam"`. -/
theorem C2_invalid_downsample_fraction_value_error_witness :
    NativeSamReader.init true "in.bam" none false none (some 2) none
      = Except.error (SamError.valueError
          "downsample_fraction must be in the interval (0.0, 1.0]"
          (some 2)) :=
  C2_invalid_downsample_fraction_value_error true "in.bam" none false none 2
    none (by decide) (by decide) (by decide)

/-- Claim C3: constructing a `NativeSamReader` with `downsample_fraction`
exactly `0` (or `None`) never raises the validation `ValueError`; on the
native branch the constructor succeeds and the zero/unset value reaches the
backend options as the non-filtering proto default `0`. -/
theorem C3_zero_downsample_means_keep_all :
    (∀ (tfbam_lib_available : Bool) (input_path : String)
        (read_requirements : Option ReadRequirements) (parse_aux_fields : Bool)
        (hts_block_size : Option Int) (downsample_fraction : Option ℚ)
        (random_seed : Option Int),
      (downsample_fraction = none ∨ downsample_fraction = some 0) →
      isValueError (NativeSamReader.init tfbam_lib_available input_path
        read_requirements parse_aux_fields hts_block_size downsample_fraction
        random_seed) = false)
    ∧ (∀ (tfbam_lib_available : Bool) (input_path : String)
        (read_requirements : Option ReadRequirements) (parse_aux_fields : Bool)
        (hts_block_size : Option Int) (downsample_fraction : Option ℚ)
        (random_seed : Option Int),
      (downsample_fraction = none ∨ downsample_fraction = some 0) →
      endswith input_path ".tfbam" = false →
      NativeSamReader.init tfbam_lib_available input_path read_requirements
          parse_aux_fields hts_block_size downsample_fraction random_seed
        = Except.ok (NativeSamReaderResult.samReader input_path
            { read_requirements := read_requirements
              aux_field_handling :=
                if parse_aux_fields then AuxFieldHandling.PARSE_ALL_AUX_FIELDS
                else AuxFieldHandling.SKIP_AUX_FIELDS
              hts_block_size := hts_block_size.getD 0
              downsample_fraction := 0
              random_seed := random_seed.getD defaultRandomSeed })) := by
  constructor
  · intro tfA input_path rr paf hbs f seed hf
    have hout : downsample_out_of_range f = false := by
      rcases hf with h | h <;> subst h <;> simp [downsample_out_of_range]
    by_cases hp : endswith input_path ".tfbam"
    · cases tfA <;> simp [NativeSamReader.init, hp, isValueError]
    · simp only [Bool.not_eq_true] at hp
      simp [NativeSamReader.init, hp, hout, isValueError]
  · intro tfA input_path rr paf hbs f seed hf hp
    have hout : downsample_out_of_range f = false := by
      rcases hf with h | h <;> subst h <;> simp [downsample_out_of_range]
    rcases hf with h | h <;> subst h <;> simp [NativeSamReader.init, hp, hout]

/-- Witness for C3: `downsample_fraction = 0` on path `"in.bam"` raises no
`ValueError`. -/
theorem C3_zero_downsample_means_keep_all_witness :
    isValueError (NativeSamReader.init true "in.bam" none false none (some 0)
      none) = false :=
  C3_zero_downsample_means_keep_all.1 true "in.bam" none false none (some 0)
    none (Or.inr rfl)

/-- Claim C9: when `random_seed = None`, the fixed constant `2928130004` is
substituted before the backend options are built: any successful native-branch
construction without an explicit seed carries exactly that seed in its
options (hence two such constructions configure identical downsampling). -/
theorem C9_default_random_seed_fixed_constant :
    ∀ (tfbam_lib_available : Bool) (input_path : String)
      (read_requirements : Option ReadRequirements) (parse_aux_fields : Bool)
      (hts_block_size : Option Int) (downsample_fraction : Option ℚ)
      (opts : SamReaderOptions),
      endswith input_path ".tfbam" = false →
      NativeSamReader.init tfbam_lib_available input_path read_requirements
          parse_aux_fields hts_block_size downsample_fraction none
        = Except.ok (NativeSamReaderResult.samReader input_path opts) →
      opts.random_seed = 2928130004 := by
  intro tfA input_path rr paf hbs f opts hp hok
  by_cases hout : downsample_out_of_range f
  · simp [NativeSamReader.init, hp, hout] at hok
  · simp only [Bool.not_eq_true] at hout
    simp [NativeSamReader.init, hp, hout] at hok
    rw [← hok]
    rfl

/-- Witness for C9 at the concrete path `"in.bam"` with no explicit seed. -/
theorem C9_default_random_seed_fixed_constant_witness :
    ({ read_requirements := none
       aux_field_handling := AuxFieldHandling.SKIP_AUX_FIELDS
       hts_block_size := 0
       downsample_fraction := 0
       random_seed := 2928130004 } : SamReaderOptions).random_seed
      = 2928130004 :=
  C9_default_random_seed_fixed_constant true "in.bam" none false none none
    { read_requirements := none
      aux_field_handling := AuxFieldHandling.SKIP_AUX_FIELDS
      hts_block_size := 0
      downsample_fraction := 0
      random_seed := 2928130004 } (by decide) rfl

/-- Claim C10: on any path ending in `.tfbam`, `NativeSamReader.__init__`
performs no range validation of `downsample_fraction`: the result never is a
`ValueError`; the fraction is passed unchecked to the tfbam backend when the
module is present, and the construction fails with `ImportError` when it is
absent. -/
theorem C10_tfbam_branch_skips_downsample_validation :
    ∀ (tfbam_lib_available : Bool) (input_path : String)
      (read_requirements : Option ReadRequirements) (parse_aux_fields : Bool)
      (hts_block_size : Option Int) (downsample_fraction : Option ℚ)
      (random_seed : Option Int),
      endswith input_path ".tfbam" = true →
      (NativeSamReader.init tfbam_lib_available input_path read_requirements
          parse_aux_fields hts_block_size downsample_fraction random_seed
        = if tfbam_lib_available then
            Except.ok (NativeSamReaderResult.tfbamReader input_path
              read_requirements hts_block_size downsample_fraction random_seed)
          else
            Except.error (SamError.importError
              "tfbam_lib module not found, cannot read .tfbam files."))
        ∧ isValueError (NativeSamReader.init tfbam_lib_available input_path
            read_requirements parse_aux_fields hts_block_size
            downsample_fraction random_seed) = false := by
  intro tfA input_path rr paf hbs f seed hp
  constructor
  · simp [NativeSamReader.init, hp]
  · cases tfA <;> simp [NativeSamReader.init, hp, isValueError]

/-- Witness for C10: the out-of-range fraction `2` on path `"a.tfbam"` with
the tfbam module present is passed through unchecked. -/
theorem C10_tfbam_branch_skips_downsample_validation_witness :
    (NativeSamReader.init true "a.tfbam" none false none (some 2) none
      = if true then
          Except.ok (NativeSamReaderResult.tfbamReader "a.tfbam" none none
            (some 2) none)
        else
          Except.error (SamError.importError
            "tfbam_lib module not found, cannot read .tfbam files."))
      ∧ isValueError (NativeSamReader.init true "a.tfbam" none false none
          (some 2) none) = false :=
  C10_tfbam_branch_skips_downsample_validation true "a.tfbam" none false none
    (some 2) none (by decide)
